import Mathlib

/-!
Shallow embedding of the request classifier / dispatcher and CONNECT tunnel
engine of rust_http_proxy (src/rust_http_proxy/src/proxy.rs) and of the
configuration constructor (src/rust_http_proxy/src/config.rs), together with
theorems settling the specification claims about them.

Modelling conventions:
* HTTP header names are normalised to lower case (hyper header-name matching
  is case-insensitive); a header map is a list of (name, value) pairs in
  insertion order, mirroring hyper's multi-valued HeaderMap.  Header values
  are Lean Strings, so HeaderValue::to_str never fails in the model (the
  model does not represent non-UTF-8 header bytes) and HeaderValue::from_str
  on a host string taken from an already-parsed URI never fails either.
* Rust str operations (split, parse::<u16>, starts_with) are re-implemented
  structurally on the character list so the kernel can evaluate them.
* External collaborators living outside the two provided source files
  (axum_handler::check_auth, LocationConfig::handle, the static responder
  behind ProxyHandler::serve_request, address::host_addr, the pooled
  forward-proxy client, rand's random_range, ip_x::local_ip, the base64
  engine, ipnetwork's CIDR parser, reverse::parse_reverse_proxy_config) are
  fields of explicit collaborator records: the embedded functions are
  parametric in them, exactly as the source calls out to them.
-/

deriving instance DecidableEq for Except

namespace RustHttpProxy

/-- io::ErrorKind, restricted to the kinds this code constructs. -/
inductive ErrorKind where
  | invalidData
  | permissionDenied
  deriving DecidableEq, Repr

/-- io::Error: a kind plus a message. -/
structure IoError where
  kind : ErrorKind
  msg : String
  deriving DecidableEq, Repr

/-- hyper::Method, restricted to the methods the dispatcher distinguishes
(only CONNECT versus everything else matters to proxy.rs). -/
inductive Method where
  | CONNECT
  | GET
  | POST
  | PUT
  | DELETE
  | HEAD
  | OPTIONS
  deriving DecidableEq, Repr

/-- hyper::Version, restricted to the versions the dispatcher distinguishes
(the source only ever compares against HTTP_2). -/
inductive Version where
  | http10
  | http11
  | http2
  deriving DecidableEq, Repr

/-- Split a character list at every occurrence of c.  Rust str::split
semantics: splitting the empty string yields one empty piece, and the
result always has at least one piece. -/
def splitChar (c : Char) : List Char → List (List Char)
  | [] => [[]]
  | x :: xs =>
    match splitChar c xs with
    | [] => [[]]
    | y :: ys => if x = c then [] :: y :: ys else (x :: y) :: ys

/-- Rust str::split on a separator character, as a list of strings. -/
def strSplit (c : Char) (s : String) : List String :=
  (splitChar c s.toList).map (fun l => String.mk l)

/-- Rust str::starts_with, computed on the character lists. -/
def sStartsWith (s p : String) : Bool :=
  p.toList.isPrefixOf s.toList

/-- Rust str::parse::<u16>: an optional leading plus sign, then one or more
ASCII digits, value below 2^16; anything else is an error. -/
def parseU16 (s : String) : Option Nat :=
  let l :=
    match s.toList with
    | '+' :: rest => rest
    | l => l
  if l.isEmpty then none
  else if l.all Char.isDigit then
    let v := l.foldl (fun a c => a * 10 + (c.toNat - 48)) 0
    if v < 65536 then some v else none
  else none

/-- A hyper HeaderMap with names already normalised to lower case. -/
abbrev Headers := List (String × String)

/-- HeaderMap::get: the first value stored under a name. -/
def getHeader (hs : Headers) (name : String) : Option String :=
  (hs.find? (fun p => p.1 == name)).map Prod.snd

/-- All values stored under a name, in insertion order. -/
def getAllHeaders (hs : Headers) (name : String) : List String :=
  (hs.filter (fun p => p.1 == name)).map Prod.snd

/-- HeaderMap::remove: every value stored under the name is removed. -/
def removeHeader (hs : Headers) (name : String) : Headers :=
  hs.filter (fun p => p.1 != name)

/-- HeaderMap::insert: drop every value stored under the name and store the
new one.  The position of the stored pair within the map is irrelevant to
every claim below, so the new pair is appended at the end. -/
def insertHeader (hs : Headers) (name value : String) : Headers :=
  removeHeader hs name ++ [(name, value)]

/-- HeaderMap::append: add a value, keeping the ones already present. -/
def appendHeader (hs : Headers) (name value : String) : Headers :=
  hs ++ [(name, value)]

/-- http::Uri, restricted to the components this code reads.  scheme and
authority (host, port) are optional; pathAndQuery is the full
path-and-query string, absent for authority-form CONNECT targets. -/
structure Uri where
  scheme : Option String
  host : Option String
  port : Option Nat
  pathAndQuery : Option String
  deriving DecidableEq, Repr

/-- Uri::path: the part of path-and-query before the first question mark,
empty for authority-form URIs. -/
def Uri.path (u : Uri) : String :=
  match u.pathAndQuery with
  | none => ""
  | some pq =>
    match strSplit '?' pq with
    | [] => ""
    | p :: _ => p

/-- Uri::default(), which is the origin-form root "/" (the source
debug-asserts exactly this). -/
def Uri.defaultUri : Uri :=
  { scheme := none, host := none, port := none, pathAndQuery := some "/" }

/-- origin_form (proxy.rs): keep only the path-and-query; an absent
path-and-query, or a bare "/", collapses to the default URI "/".
Uri::from_parts with only a path-and-query present always succeeds, so the
io::Result in the source never errs and the model is total. -/
def origin_form (u : Uri) : Uri :=
  match u.pathAndQuery with
  | some pq =>
    if pq != "/" then
      { scheme := none, host := none, port := none, pathAndQuery := some pq }
    else Uri.defaultUri
  | none => Uri.defaultUri

/-- is_schema_secure (proxy.rs): the scheme is wss or https; an absent
scheme is not secure (unwrap_or_default). -/
def is_schema_secure (u : Uri) : Bool :=
  match u.scheme with
  | some s => s == "wss" || s == "https"
  | none => false

/-- The inbound request: method, version, URI, headers, and an opaque body
payload (the streaming body is never inspected by the embedded code). -/
structure Request where
  method : Method
  version : Version
  uri : Uri
  headers : Headers
  body : String
  deriving DecidableEq, Repr

/-- An HTTP response: status code, headers, body ("" is the empty body). -/
structure Response where
  status : Nat
  headers : Headers
  body : String
  deriving DecidableEq, Repr

/-- SchemeHostPort (proxy.rs). -/
structure SchemeHostPort where
  scheme : String
  host : String
  port : Option Nat
  deriving DecidableEq, Repr

/-- RequestDomain (proxy.rs): the normalised reverse-proxy lookup key. -/
structure RequestDomain where
  host : String
  deriving DecidableEq, Repr

/-- extract_scheme_host_port (proxy.rs).  HTTP/2: host and port come from
the URI (error when the URI has no authority) and the domain prefers the
part of the Host header before the first colon, falling back to the URI
host.  Every other version: the Host header is split on colons; the first
piece is the host, and the second piece, when the header contains a colon,
must parse as u16 (any pieces after the second colon are ignored, exactly
as the source only calls split.next() twice). -/
def extract_scheme_host_port (req : Request) (default_scheme : String) :
    Except IoError (SchemeHostPort × RequestDomain) :=
  let scheme := req.uri.scheme.getD default_scheme
  if req.version = Version.http2 then
    match req.uri.host with
    | none => .error ⟨.invalidData, "authority is absent in HTTP/2"⟩
    | some host_in_url =>
      let host_in_header :=
        (getHeader req.headers "host").bind
          (fun h =>
            match strSplit ':' h with
            | [] => none
            | x :: _ => some x)
      .ok (⟨scheme, host_in_url, req.uri.port⟩, ⟨host_in_header.getD host_in_url⟩)
  else
    match getHeader req.headers "host" with
    | none => .error ⟨.invalidData, "Host Header is absent in HTTP/1.1"⟩
    | some hv =>
      match strSplit ':' hv with
      | [] => .error ⟨.invalidData, "host not in header"⟩
      | host :: rest =>
        match rest with
        | [] => .ok (⟨scheme, host, none⟩, ⟨host⟩)
        | p :: _ =>
          match parseU16 p with
          | none => .error ⟨.invalidData, "invalid digit found in string"⟩
          | some port => .ok (⟨scheme, host, some port⟩, ⟨host⟩)

/-- mod_http1_proxy_req (proxy.rs).  The source mutates the request in
place and returns io::Result<()>; the model returns the mutated request
together with the optional error, so the partial mutation performed before
an early error return stays observable. -/
def mod_http1_proxy_req (req : Request) : Request × Option IoError :=
  let req :=
    { req with
      headers := removeHeader (removeHeader req.headers "proxy-authorization") "proxy-connection" }
  match req.uri.host with
  | none => (req, some ⟨.invalidData, "host is absent in HTTP/1.1"⟩)
  | some hostname =>
    -- the source matches (uri.port(), is_schema_secure(&uri)) against the
    -- literal patterns (Some(443), true) and (Some(80), false), falling
    -- through to uri.port(); spelled as the equivalent ordered if-chain
    let portOpt : Option Nat :=
      if req.uri.port = some 443 ∧ is_schema_secure req.uri then none
      else if req.uri.port = some 80 ∧ is_schema_secure req.uri = false then none
      else req.uri.port
    let host_header :=
      match portOpt with
      | some port => hostname ++ ":" ++ toString port
      | none => hostname
    ({ req with
       headers := insertHeader req.headers "host" host_header,
       uri := origin_form req.uri }, none)

/-- A reverse-proxy LocationRule: only the location path of the rule is
read by the dispatcher; the upstream is kept as an opaque tag. -/
structure LocationRule where
  location : String
  upstream : String
  deriving DecidableEq, Repr

/-- DEFAULT_HOST.  Modelled from the spec: the sentinel key is declared in
src/rust_http_proxy/src/reverse.rs, which is not among the provided
sources; the spec describes it as the fallback bucket key consulted iff no
exact host match exists.  Its literal value is irrelevant to the claims. -/
def DEFAULT_HOST : String := "default_host"

/-- An IP address: v4 as a 32-bit value, v6 as a 128-bit value. -/
inductive Ip where
  | v4 (bits : Nat)
  | v6 (bits : Nat)
  deriving DecidableEq, Repr

/-- IpAddr::to_canonical: an IPv4-mapped IPv6 address (::ffff:a.b.c.d, i.e.
bits 32..127 equal 0xffff) becomes the embedded IPv4 address; every other
address is unchanged. -/
def Ip.toCanonical : Ip → Ip
  | .v4 b => .v4 b
  | .v6 b => if b / 2 ^ 32 = 0xffff then .v4 (b % 2 ^ 32) else .v6 b

/-- ipnetwork::IpNetwork: a network address with a prefix length. -/
inductive Network where
  | v4 (bits plen : Nat)
  | v6 (bits plen : Nat)
  deriving DecidableEq, Repr

/-- IpNetwork::contains: membership masks both addresses down to the
prefix; a v4 network never contains a v6 address, nor vice versa. -/
def Network.contains : Network → Ip → Bool
  | .v4 nb pl, .v4 ib => ib / 2 ^ (32 - pl) = nb / 2 ^ (32 - pl)
  | .v6 nb pl, .v6 ib => ib / 2 ^ (128 - pl) = nb / 2 ^ (128 - pl)
  | _, _ => false

/-- std::net::SocketAddr. -/
structure SocketAddr where
  ip : Ip
  port : Nat
  deriving DecidableEq, Repr

/-- ServingControl (config.rs). -/
structure ServingControl where
  prohibit_serving : Bool
  allowed_networks : List Network
  deriving DecidableEq, Repr

/-- Config (config.rs), restricted to the fields the dispatcher reads.  The
basic_auth HashMap is modelled as an association list in insertion order
(key uniqueness of the HashMap is immaterial to the claims, since the table
is only passed through to the external check_auth). -/
structure Config where
  basic_auth : List (String × String)
  never_ask_for_auth : Bool
  over_tls : Bool
  reverse_locations : List (String × List LocationRule)
  serving_control : ServingControl
  deriving DecidableEq, Repr

/-- InterceptResultAdapter (proxy.rs). -/
inductive Outcome where
  | Drop
  | Return (resp : Response)
  | Continue (req : Request)
  deriving DecidableEq, Repr

/-- Observable collaborator calls of one dispatch, recorded alongside the
result so that the claims about which engine runs can be stated. -/
structure Events where
  authChecked : Bool
  reverseInvoked : Option LocationRule
  staticInvoked : Bool
  tunnelSpawned : Bool
  deriving DecidableEq, Repr

/-- No collaborator called yet. -/
def Events.init : Events :=
  { authChecked := false, reverseInvoked := none, staticInvoked := false, tunnelSpawned := false }

/-- AccessLabel (proxy.rs).  The source stores the canonical client IP as a
string; the formatting of an IP is immaterial to every claim, so the model
stores the canonical IP itself. -/
structure AccessLabel where
  client : Ip
  target : String
  username : String
  deriving DecidableEq, Repr

/-- The external collaborators of proxy.rs that live outside the provided
sources: check_auth is axum_handler::check_auth; reverseHandle is
LocationConfig::handle; serveStatic is ProxyHandler::serve_request's
raw_serve backend together with its AXUM_PATHS / percent-decoding guard;
host_addr is address::host_addr (the URI authority as "host:port", none
when it does not parse as a socket-address target); send is the pooled
forward-proxy client; rngDraw lo hi models rand's random_range(lo..hi);
localIp is ip_x::local_ip's cached LOCAL_IP. -/
structure Ext where
  check_auth : Headers → List (String × String) → Except String (Option String)
  reverseHandle : LocationRule → Request → SchemeHostPort → Except IoError Response
  serveStatic : Request → Except IoError Response
  host_addr : Uri → Option String
  send : Request → Except IoError Response
  rngDraw : Nat → Nat → Nat
  localIp : String

/-- build_authenticate_resp (proxy.rs): the 407 (proxy) or 401 (server)
challenge with body "auth need". -/
def build_authenticate_resp (for_proxy : Bool) : Response :=
  { status := if for_proxy then 407 else 401,
    headers := [(if for_proxy then "proxy-authenticate" else "www-authenticate",
                 "Basic realm=\"are you kidding me\"")],
    body := "auth need" }

/-- tunnel_proxy (proxy.rs).  Besides the io::Result response of the
source, the Bool records whether the asynchronous tunnel task was spawned.
When the URI authority parses (host_addr is some), the task is spawned and
the 200 response carries count identical Server headers valued at the
local IP, with count drawn as random_range(1..2048 / LOCAL_IP.len()). -/
def tunnel_proxy (ext : Ext) (req : Request) : Except IoError Response × Bool :=
  match ext.host_addr req.uri with
  | some _addr =>
    let max_num := 2048 / ext.localIp.length
    let count := ext.rngDraw 1 max_num
    (.ok { status := 200,
           headers := List.replicate count ("server", ext.localIp),
           body := "" }, true)
  | none =>
    (.ok { status := 400, headers := [],
           body := "CONNECT must be to a socket address" }, false)

/-- build_access_label (proxy.rs): fails when the URI has no parseable
authority. -/
def build_access_label (ext : Ext) (req : Request) (client_socket_addr : SocketAddr)
    (username : String) : Except IoError AccessLabel :=
  match ext.host_addr req.uri with
  | none => .error ⟨.invalidData, "URI missing host"⟩
  | some addr => .ok ⟨client_socket_addr.ip.toCanonical, addr, username⟩

/-- simple_proxy (proxy.rs): build the access label, rewrite the request in
place, send it through the pooled forward-proxy client. -/
def simple_proxy (ext : Ext) (req : Request) (client_socket_addr : SocketAddr)
    (username : String) : Except IoError Response :=
  match build_access_label ext req client_socket_addr username with
  | .error e => .error e
  | .ok _label =>
    match mod_http1_proxy_req req with
    | (_, some e) => .error e
    | (req2, none) => ext.send req2

/-- The serving branch of ProxyHandler::handle (proxy.rs lines 110-145):
prohibit_serving drops; a non-empty allowed_networks list with no CIDR
containing the canonical client IP drops; otherwise serve_request runs and
a 404 becomes Continue, anything else Return. -/
def servingStage (cfg : Config) (ext : Ext) (req : Request)
    (client_socket_addr : SocketAddr) : Except IoError Outcome × Events :=
  if cfg.serving_control.prohibit_serving then
    (.ok Outcome.Drop, Events.init)
  else
    let client_ip := client_socket_addr.ip.toCanonical
    let allowed_networks := cfg.serving_control.allowed_networks
    if !allowed_networks.isEmpty && !allowed_networks.any (fun network => network.contains client_ip) then
      (.ok Outcome.Drop, Events.init)
    else
      match ext.serveStatic req with
      | .ok res =>
        if res.status = 404 then
          (.ok (Outcome.Continue req), { Events.init with staticInvoked := true })
        else
          (.ok (Outcome.Return res), { Events.init with staticInvoked := true })
      | .error e => (.error e, { Events.init with staticInvoked := true })

/-- The proxy stage of ProxyHandler::handle (proxy.rs lines 148-178):
check_auth on Proxy-Authorization; success routes CONNECT to tunnel_proxy
and everything else to simple_proxy; failure drops with a permission-denied
error under never_ask_for_auth, else returns the 407 challenge. -/
def proxyStage (cfg : Config) (ext : Ext) (req : Request)
    (client_socket_addr : SocketAddr) : Except IoError Outcome × Events :=
  match ext.check_auth req.headers cfg.basic_auth with
  | .ok username_option =>
    let username := username_option.getD "unknown"
    if req.method = Method.CONNECT then
      let r := tunnel_proxy ext req
      (r.1.map Outcome.Return,
       { Events.init with authChecked := true, tunnelSpawned := r.2 })
    else
      ((simple_proxy ext req client_socket_addr username).map Outcome.Return,
       { Events.init with authChecked := true })
  | .error _e =>
    if cfg.never_ask_for_auth then
      (.error ⟨.permissionDenied, "wrong basic auth, closing socket..."⟩,
       { Events.init with authChecked := true })
    else
      (.ok (Outcome.Return (build_authenticate_resp true)),
       { Events.init with authChecked := true })

/-- ProxyHandler::handle (proxy.rs): the per-request dispatcher, returning
the io::Result of the source paired with the record of collaborator calls.
Non-CONNECT requests resolve the scheme-host-port, try the reverse-proxy
bucket of the request domain (falling back to the DEFAULT_HOST bucket) with
first-match-wins prefix matching on the raw URI path, then route HTTP/2 or
host-less requests to the serving stage; everything else reaches the proxy
stage. -/
def handle (cfg : Config) (ext : Ext) (req : Request)
    (client_socket_addr : SocketAddr) : Except IoError Outcome × Events :=
  if req.method ≠ Method.CONNECT then
    match extract_scheme_host_port req (if cfg.over_tls then "https" else "http") with
    | .error e => (.error e, Events.init)
    | .ok (shp, req_domain) =>
      let bucket :=
        (cfg.reverse_locations.lookup req_domain.host).orElse
          (fun _ => cfg.reverse_locations.lookup DEFAULT_HOST)
      match bucket.bind (fun rules => rules.find? (fun r => sStartsWith req.uri.path r.location)) with
      | some rule =>
        ((ext.reverseHandle rule req shp).map Outcome.Return,
         { Events.init with reverseInvoked := some rule })
      | none =>
        if req.version = Version.http2 ∨ req.uri.host = none then
          servingStage cfg ext req client_socket_addr
        else
          proxyStage cfg ext req client_socket_addr
  else
    proxyStage cfg ext req client_socket_addr

/-- CLI Param (config.rs), restricted to the fields Config::try_from reads
for the claims below. -/
structure Param where
  users : List String
  never_ask_for_auth : Bool
  prohibit_serving : Bool
  allow_serving_network : List String
  over_tls : Bool
  deriving DecidableEq, Repr

/-- The external collaborators of config.rs: the base64 STANDARD engine,
ipnetwork's IpNetwork::from_str, and parse_reverse_proxy_config (whose
result only depends on fields the model does not otherwise read). -/
structure ConfigExt where
  b64encode : String → String
  parseCidr : String → Option Network
  parseReverse : Except String (List (String × List LocationRule))

/-- Config::try_from (config.rs).  A user entry whose name or password
piece is empty is skipped without error; a CIDR string the parser rejects
is logged and skipped without error; only a reverse-proxy config parse
failure aborts construction. -/
def basic_auth_step (b64 : String → String) (acc : List (String × String))
    (raw_user : String) : List (String × String) :=
  let pieces := strSplit ':' raw_user
  let username := pieces.headD ""
  let password := (pieces.drop 1).headD ""
  if username != "" && password != "" then
    acc ++ [("Basic " ++ b64 raw_user, username)]
  else acc

def Config.try_from (ext : ConfigExt) (param : Param) : Except String Config :=
  let basic_auth := param.users.foldl (basic_auth_step ext.b64encode) []
  match ext.parseReverse with
  | .error e => .error e
  | .ok reverse_locations =>
    let allowed_networks :=
      if !param.prohibit_serving && !param.allow_serving_network.isEmpty then
        param.allow_serving_network.filterMap ext.parseCidr
      else []
    .ok { basic_auth := basic_auth,
          never_ask_for_auth := param.never_ask_for_auth,
          over_tls := param.over_tls,
          reverse_locations := reverse_locations,
          serving_control :=
            { prohibit_serving := param.prohibit_serving,
              allowed_networks := allowed_networks } }

/-! ### Helper lemmas about the header-map and URI operations -/

theorem getAllHeaders_removeHeader_self (hs : Headers) (n : String) :
    getAllHeaders (removeHeader hs n) n = [] := by
  induction hs with
  | nil => rfl
  | cons p t ih =>
    by_cases h : p.1 = n <;>
      simpa [getAllHeaders, removeHeader, List.filter_cons, h, bne_iff_ne, beq_iff_eq] using ih

theorem getAllHeaders_removeHeader_ne (hs : Headers) (n m : String) (h : m ≠ n) :
    getAllHeaders (removeHeader hs n) m = getAllHeaders hs m := by
  induction hs with
  | nil => rfl
  | cons p t ih =>
    by_cases h1 : p.1 = n
    · have h2 : ¬p.1 = m := by rw [h1]; exact fun hq => h hq.symm
      simpa [getAllHeaders, removeHeader, List.filter_cons, h1, h2, Ne.symm h, h,
        bne_iff_ne, beq_iff_eq] using ih
    · by_cases h2 : p.1 = m <;>
        simpa [getAllHeaders, removeHeader, List.filter_cons, h1, h2, Ne.symm h, h,
          bne_iff_ne, beq_iff_eq] using ih

theorem getAllHeaders_append (xs ys : Headers) (n : String) :
    getAllHeaders (xs ++ ys) n = getAllHeaders xs n ++ getAllHeaders ys n := by
  simp [getAllHeaders, List.filter_append]

theorem getHeader_eq_head_getAllHeaders (hs : Headers) (n : String) :
    getHeader hs n = (getAllHeaders hs n).head? := by
  induction hs with
  | nil => rfl
  | cons p t ih =>
    by_cases h : p.1 = n <;>
      simpa [getHeader, getAllHeaders, List.find?_cons, List.filter_cons, h, beq_iff_eq] using ih

theorem getHeader_insertHeader_self (hs : Headers) (n v : String) :
    getHeader (insertHeader hs n v) n = some v := by
  rw [getHeader_eq_head_getAllHeaders, insertHeader, getAllHeaders_append,
    getAllHeaders_removeHeader_self]
  simp [getAllHeaders]

theorem getAllHeaders_insertHeader_ne (hs : Headers) (n v m : String) (h : m ≠ n) :
    getAllHeaders (insertHeader hs n v) m = getAllHeaders hs m := by
  rw [insertHeader, getAllHeaders_append, getAllHeaders_removeHeader_ne hs n m h]
  simp [getAllHeaders, Ne.symm h]

theorem removeHeader_of_getAllHeaders_nil (hs : Headers) (n : String)
    (h : getAllHeaders hs n = []) : removeHeader hs n = hs := by
  induction hs with
  | nil => rfl
  | cons p t ih =>
    by_cases h1 : p.1 = n
    · simp [getAllHeaders, List.filter_cons, h1] at h
    · have h2 := ih (by simpa [getAllHeaders, List.filter_cons, h1] using h)
      simp [removeHeader, List.filter_cons, h1, bne_iff_ne] at h2 ⊢
      exact h2

theorem origin_form_scheme (u : Uri) : (origin_form u).scheme = none := by
  unfold origin_form Uri.defaultUri
  cases u.pathAndQuery <;> simp <;> split <;> rfl

theorem origin_form_host (u : Uri) : (origin_form u).host = none := by
  unfold origin_form Uri.defaultUri
  cases u.pathAndQuery <;> simp <;> split <;> rfl

theorem origin_form_port (u : Uri) : (origin_form u).port = none := by
  unfold origin_form Uri.defaultUri
  cases u.pathAndQuery <;> simp <;> split <;> rfl

theorem origin_form_pathAndQuery (u : Uri) :
    (origin_form u).pathAndQuery =
      some (match u.pathAndQuery with
            | none => "/"
            | some pq => if pq = "/" then "/" else pq) := by
  unfold origin_form Uri.defaultUri
  cases u.pathAndQuery with
  | none => rfl
  | some pq => by_cases h : pq = "/" <;> simp [h]

theorem getAllHeaders_replicate (n : Nat) (name v : String) :
    getAllHeaders (List.replicate n (name, v)) name = List.replicate n v := by
  induction n with
  | zero => rfl
  | succ k ih => simpa [getAllHeaders, List.replicate, List.filter] using ih

/-! ### Statement vocabulary taken from the spec's words -/

/-- The scheme's default port in the words of the spec: 443 for https and
wss, 80 for http and ws. -/
def spec_default_port (scheme : String) : Nat :=
  if scheme == "https" || scheme == "wss" then 443 else 80

/-! ### Concrete fixtures used by witnesses and counterexamples -/

/-- An absolute-form forward-proxy GET with a non-default port. -/
def reqAbs : Request :=
  { method := .GET, version := .http11,
    uri := { scheme := some "http", host := some "example.com", port := some 8081,
             pathAndQuery := some "/p?q=1" },
    headers := [("host", "example.com:8081"), ("proxy-connection", "keep-alive"),
                ("accept", "text/html"), ("proxy-authorization", "Basic Zm9vOmJhcg==")],
    body := "b" }

/-! ### C5 -/

/-- C5: for every request entering the simple-proxy engine whose URI
carries a host, the rewritten request has neither Proxy-Authorization nor
Proxy-Connection, its URI is origin-form (path-and-query only, collapsing
to "/" when absent or bare "/"), and its Host header is "host" exactly
when the URI port is absent or equals the scheme's default (80 for
http/ws, 443 for https/wss), else "host:port"; when the URI carries no
host the rewrite fails with an invalid-data error. -/
theorem c5_rewriter_output (req : Request) :
    (∀ hn, req.uri.host = some hn →
      (req.uri.scheme = some "http" ∨ req.uri.scheme = some "ws" ∨
       req.uri.scheme = some "https" ∨ req.uri.scheme = some "wss") →
      (mod_http1_proxy_req req).2 = none ∧
      getAllHeaders (mod_http1_proxy_req req).1.headers "proxy-authorization" = [] ∧
      getAllHeaders (mod_http1_proxy_req req).1.headers "proxy-connection" = [] ∧
      (mod_http1_proxy_req req).1.uri.scheme = none ∧
      (mod_http1_proxy_req req).1.uri.host = none ∧
      (mod_http1_proxy_req req).1.uri.port = none ∧
      (mod_http1_proxy_req req).1.uri.pathAndQuery =
        some (match req.uri.pathAndQuery with
              | none => "/"
              | some pq => if pq = "/" then "/" else pq) ∧
      getHeader (mod_http1_proxy_req req).1.headers "host" =
        some (match req.uri.port with
              | none => hn
              | some p =>
                if p = spec_default_port (req.uri.scheme.getD "") then hn
                else hn ++ ":" ++ toString p)) ∧
    (req.uri.host = none →
      (mod_http1_proxy_req req).2 =
        some ⟨ErrorKind.invalidData, "host is absent in HTTP/1.1"⟩) := by
  constructor
  · intro hn hh hsch
    refine ⟨by simp [mod_http1_proxy_req, hh], ?_, ?_, ?_, ?_, ?_, ?_, ?_⟩
    · simp only [mod_http1_proxy_req, hh]
      rw [getAllHeaders_insertHeader_ne _ _ _ _ (by decide),
        getAllHeaders_removeHeader_ne _ _ _ (by decide),
        getAllHeaders_removeHeader_self]
    · simp only [mod_http1_proxy_req, hh]
      rw [getAllHeaders_insertHeader_ne _ _ _ _ (by decide),
        getAllHeaders_removeHeader_self]
    · simp [mod_http1_proxy_req, hh, origin_form_scheme]
    · simp [mod_http1_proxy_req, hh, origin_form_host]
    · simp [mod_http1_proxy_req, hh, origin_form_port]
    · simp [mod_http1_proxy_req, hh, origin_form_pathAndQuery]
    · simp only [mod_http1_proxy_req, hh]
      rw [getHeader_insertHeader_self]
      rcases hsch with hs1 | hs1 | hs1 | hs1 <;>
        cases hp : req.uri.port with
        | none => simp [hp, is_schema_secure, hs1, spec_default_port]
        | some p =>
          rcases Decidable.em (p = 443) with h443 | h443 <;>
            rcases Decidable.em (p = 80) with h80 | h80 <;>
            simp_all [is_schema_secure, spec_default_port]
  · intro hh
    simp [mod_http1_proxy_req, hh]

/-- Witness for C5 at a concrete request. -/
theorem c5_rewriter_output_witness :
    (mod_http1_proxy_req reqAbs).2 = none ∧
    getHeader (mod_http1_proxy_req reqAbs).1.headers "host" = some "example.com:8081" ∧
    getAllHeaders (mod_http1_proxy_req reqAbs).1.headers "proxy-authorization" = [] := by
  have h := (c5_rewriter_output reqAbs).1 "example.com" rfl (Or.inl rfl)
  exact ⟨h.1, by simpa using h.2.2.2.2.2.2.2, h.2.1⟩

/-! ### C8 -/

/-- Counterexample for C8: applying the rewriter twice is not the same as
applying it once — on this request the first application succeeds but the
second fails (the rewritten URI is origin-form, so its host is absent). -/
theorem c8_rewriter_not_idempotent_cex :
    (mod_http1_proxy_req reqAbs).2 = none ∧
    (mod_http1_proxy_req (mod_http1_proxy_req reqAbs).1).2 ≠ none := by decide

/-- C8 amended: applying the rewriter to the output of a successful
rewrite always fails with the invalid-data error "host is absent in
HTTP/1.1" (a successful rewrite leaves an origin-form URI, which has no
host), and the failing second application leaves the request unchanged
(the proxy headers it would strip are already gone). -/
theorem c8_rewriter_second_application_fails (req r1 : Request)
    (h : mod_http1_proxy_req req = (r1, none)) :
    mod_http1_proxy_req r1 =
      (r1, some ⟨ErrorKind.invalidData, "host is absent in HTTP/1.1"⟩) := by
  unfold mod_http1_proxy_req at h
  cases hh : req.uri.host with
  | none => simp [hh] at h
  | some hn =>
    simp only [hh] at h
    have hr1 := congrArg Prod.fst h
    simp only at hr1
    have huri : r1.uri.host = none := by
      rw [← hr1]
      exact origin_form_host req.uri
    have hhdr : getAllHeaders r1.headers "proxy-authorization" = [] := by
      rw [← hr1]
      rw [getAllHeaders_insertHeader_ne _ _ _ _ (by decide),
        getAllHeaders_removeHeader_ne _ _ _ (by decide),
        getAllHeaders_removeHeader_self]
    have hhdr2 : getAllHeaders r1.headers "proxy-connection" = [] := by
      rw [← hr1]
      rw [getAllHeaders_insertHeader_ne _ _ _ _ (by decide),
        getAllHeaders_removeHeader_self]
    have hrm : removeHeader (removeHeader r1.headers "proxy-authorization") "proxy-connection" =
        r1.headers := by
      rw [removeHeader_of_getAllHeaders_nil _ _ hhdr]
      exact removeHeader_of_getAllHeaders_nil _ _ hhdr2
    simp only [mod_http1_proxy_req, hrm, huri]

/-- Witness for the amended C8 at a concrete request. -/
theorem c8_rewriter_second_application_fails_witness :
    mod_http1_proxy_req (mod_http1_proxy_req reqAbs).1 =
      ((mod_http1_proxy_req reqAbs).1,
       some ⟨ErrorKind.invalidData, "host is absent in HTTP/1.1"⟩) :=
  c8_rewriter_second_application_fails reqAbs (mod_http1_proxy_req reqAbs).1 (by decide)

/-! ### C10 -/

/-- C10: the rewriter touches only the Host, Proxy-Authorization and
Proxy-Connection headers and the URI — the method, version, body, and
every header under any other name are exactly unchanged (this covers both
the success case and the failed-rewrite partial mutation). -/
theorem c10_rewriter_frame (req : Request) (name : String)
    (h1 : name ≠ "host") (h2 : name ≠ "proxy-authorization")
    (h3 : name ≠ "proxy-connection") :
    (mod_http1_proxy_req req).1.method = req.method ∧
    (mod_http1_proxy_req req).1.version = req.version ∧
    (mod_http1_proxy_req req).1.body = req.body ∧
    getAllHeaders (mod_http1_proxy_req req).1.headers name = getAllHeaders req.headers name := by
  cases hh : req.uri.host with
  | none =>
    refine ⟨by simp [mod_http1_proxy_req, hh], by simp [mod_http1_proxy_req, hh],
      by simp [mod_http1_proxy_req, hh], ?_⟩
    simp only [mod_http1_proxy_req, hh]
    rw [getAllHeaders_removeHeader_ne _ _ _ h3, getAllHeaders_removeHeader_ne _ _ _ h2]
  | some hn =>
    refine ⟨by simp [mod_http1_proxy_req, hh], by simp [mod_http1_proxy_req, hh],
      by simp [mod_http1_proxy_req, hh], ?_⟩
    simp only [mod_http1_proxy_req, hh]
    rw [getAllHeaders_insertHeader_ne _ _ _ _ h1, getAllHeaders_removeHeader_ne _ _ _ h3,
      getAllHeaders_removeHeader_ne _ _ _ h2]

/-- Witness for C10 at a concrete request and header name. -/
theorem c10_rewriter_frame_witness :
    (mod_http1_proxy_req reqAbs).1.method = reqAbs.method ∧
    (mod_http1_proxy_req reqAbs).1.version = reqAbs.version ∧
    (mod_http1_proxy_req reqAbs).1.body = reqAbs.body ∧
    getAllHeaders (mod_http1_proxy_req reqAbs).1.headers "accept" =
      getAllHeaders reqAbs.headers "accept" :=
  c10_rewriter_frame reqAbs "accept" (by decide) (by decide) (by decide)

/-! ### C7 -/

/-- An HTTP/1.1 request whose Host header is present but empty. -/
def reqEmptyHost : Request :=
  { method := .GET, version := .http11,
    uri := { scheme := none, host := none, port := none, pathAndQuery := some "/" },
    headers := [("host", "")], body := "" }

/-- Counterexample for C7: an empty Host header is not rejected — host
resolution succeeds and produces a SchemeHostPort whose host is the empty
string, contradicting both the "empty host rejected" edge case and the
non-empty-host invariant of SchemeHostPort. -/
theorem c7_empty_host_cex :
    extract_scheme_host_port reqEmptyHost "http" =
      .ok ({ scheme := "http", host := "", port := none }, { host := "" }) := by
  decide

/-- C7 amended: for non-HTTP/2 requests the Host header is authoritative
and resolution fails when it is absent; otherwise the host — possibly
empty — is the piece before the first colon, the RequestDomain equals it,
and the piece between the first and second colon, when the header contains
a colon, must parse as u16 (anything after a second colon is ignored). -/
theorem c7_host_resolution (req : Request) (ds : String)
    (hv2 : req.version ≠ Version.http2) :
    (getHeader req.headers "host" = none →
      extract_scheme_host_port req ds =
        .error ⟨ErrorKind.invalidData, "Host Header is absent in HTTP/1.1"⟩) ∧
    (∀ hv host rest, getHeader req.headers "host" = some hv →
      strSplit ':' hv = host :: rest →
      extract_scheme_host_port req ds =
        match rest with
        | [] => .ok (⟨req.uri.scheme.getD ds, host, none⟩, ⟨host⟩)
        | p :: _ =>
          match parseU16 p with
          | some prt => .ok (⟨req.uri.scheme.getD ds, host, some prt⟩, ⟨host⟩)
          | none => .error ⟨ErrorKind.invalidData, "invalid digit found in string"⟩) := by
  constructor
  · intro h
    simp [extract_scheme_host_port, hv2, h]
  · intro hv host rest hh hsp
    cases rest with
    | nil => simp [extract_scheme_host_port, hv2, hh, hsp]
    | cons p r2 =>
      cases hp : parseU16 p <;> simp [extract_scheme_host_port, hv2, hh, hsp, hp]

/-- An HTTP/1.1 request with Host header "example.com:8080". -/
def reqHostPort : Request :=
  { method := .GET, version := .http11,
    uri := { scheme := none, host := none, port := none, pathAndQuery := some "/" },
    headers := [("host", "example.com:8080")], body := "" }

/-- Witness for the amended C7 at a concrete request. -/
theorem c7_host_resolution_witness :
    extract_scheme_host_port reqHostPort "http" =
      .ok ({ scheme := "http", host := "example.com", port := some 8080 },
           { host := "example.com" }) := by
  have h := (c7_host_resolution reqHostPort "http" (by decide)).2
    "example.com:8080" "example.com" ["8080"] (by decide) (by decide)
  exact h

/-! ### C3 -/

/-- C3: a CONNECT request whose URI authority does not parse as host:port
is answered synchronously with status 400 and body "CONNECT must be to a
socket address", and the tunnel task is not spawned. -/
theorem c3_connect_bad_authority (ext : Ext) (req : Request)
    (h : ext.host_addr req.uri = none) :
    tunnel_proxy ext req =
      (.ok { status := 400, headers := [],
             body := "CONNECT must be to a socket address" }, false) := by
  simp [tunnel_proxy, h]

/-- A concrete collaborator record used by witnesses: host_addr requires
both host and port of the URI, auth accepts anonymously, the static
responder answers 404, the reverse handler echoes the matched location,
and the rng draws the low bound of its range. -/
def extFix : Ext :=
  { check_auth := fun _ _ => .ok none,
    reverseHandle := fun rule _ shp =>
      .ok { status := 200, headers := [], body := rule.location ++ shp.host },
    serveStatic := fun _ => .ok { status := 404, headers := [], body := "" },
    host_addr := fun u =>
      match u.host, u.port with
      | some h, some p => some (h ++ ":" ++ toString p)
      | _, _ => none,
    send := fun _ => .ok { status := 200, headers := [], body := "sent" },
    rngDraw := fun lo _ => lo,
    localIp := "10.0.0.7" }

/-- A CONNECT request whose authority has no port, so the fixture
host_addr rejects it. -/
def reqConnectBad : Request :=
  { method := .CONNECT, version := .http11,
    uri := { scheme := none, host := some "example.com", port := none, pathAndQuery := none },
    headers := [], body := "" }

/-- Witness for C3 at a concrete request. -/
theorem c3_connect_bad_authority_witness :
    tunnel_proxy extFix reqConnectBad =
      (.ok { status := 400, headers := [],
             body := "CONNECT must be to a socket address" }, false) :=
  c3_connect_bad_authority extFix reqConnectBad (by decide)

/-! ### C1 -/

/-- C1: a non-CONNECT request whose RequestDomain selects a reverse-proxy
bucket (the exact host key, or the DEFAULT_HOST bucket only when no exact
key exists — which is what the lookup-orElse hypothesis says) containing a
first location rule, in insertion order, whose location is a prefix of the
raw request path, is handed to the reverse-proxy handler for that rule and
the handler's result is returned; the auth gate (check_auth) is not
consulted. -/
theorem c1_reverse_dispatch (cfg : Config) (ext : Ext) (req : Request)
    (client : SocketAddr) (shp : SchemeHostPort) (dom : RequestDomain)
    (rules : List LocationRule) (rule : LocationRule)
    (hm : req.method ≠ Method.CONNECT)
    (hx : extract_scheme_host_port req (if cfg.over_tls then "https" else "http") =
      .ok (shp, dom))
    (hb : (cfg.reverse_locations.lookup dom.host).orElse
        (fun _ => cfg.reverse_locations.lookup DEFAULT_HOST) = some rules)
    (hf : rules.find? (fun r => sStartsWith req.uri.path r.location) = some rule) :
    handle cfg ext req client =
      ((ext.reverseHandle rule req shp).map Outcome.Return,
       { Events.init with reverseInvoked := some rule }) ∧
    (handle cfg ext req client).2.authChecked = false := by
  have h1 : handle cfg ext req client =
      ((ext.reverseHandle rule req shp).map Outcome.Return,
       { Events.init with reverseInvoked := some rule }) := by
    simp [handle, hm, hx, hb, hf]
  exact ⟨h1, by rw [h1]; rfl⟩


/-- The configuration fixture: one reverse-proxy bucket for cdn.example
with a single /lib/ rule, no credentials, asking mode, serving allowed
from everywhere. -/
def cfgFix : Config :=
  { basic_auth := [], never_ask_for_auth := false, over_tls := false,
    reverse_locations := [("cdn.example", [⟨"/lib/", "https-upstream"⟩])],
    serving_control := { prohibit_serving := false, allowed_networks := [] } }

/-- 192.168.1.5:47319. -/
def clientFix : SocketAddr := { ip := .v4 0xC0A80105, port := 47319 }

/-- GET /lib/jquery.js with Host cdn.example over HTTP/1.1. -/
def reqReverse : Request :=
  { method := .GET, version := .http11,
    uri := { scheme := none, host := none, port := none,
             pathAndQuery := some "/lib/jquery.js" },
    headers := [("host", "cdn.example")], body := "" }

/-- Witness for C1 at a concrete configuration and request. -/
theorem c1_reverse_dispatch_witness :
    handle cfgFix extFix reqReverse clientFix =
      ((extFix.reverseHandle ⟨"/lib/", "https-upstream"⟩ reqReverse
          { scheme := "http", host := "cdn.example", port := none }).map Outcome.Return,
       { Events.init with reverseInvoked := some ⟨"/lib/", "https-upstream"⟩ }) ∧
    (handle cfgFix extFix reqReverse clientFix).2.authChecked = false :=
  c1_reverse_dispatch cfgFix extFix reqReverse clientFix
    { scheme := "http", host := "cdn.example", port := none } { host := "cdn.example" }
    [⟨"/lib/", "https-upstream"⟩] ⟨"/lib/", "https-upstream"⟩
    (by decide) (by decide) (by decide) (by decide)

/-! ### C2 -/

/-- C2: a CONNECT request that passes authentication and whose URI
authority parses as host:port is answered 200 with an empty body and
count identical Server headers valued at the local IP, where count is the
random_range(1..2048 / len(local-ip)) draw; under rand's contract that
the draw is at least the low bound, the response carries at least one
such Server header.  (Uniformity of the draw is the rand library's
contract and is not re-stated here.) -/
theorem c2_connect_tunnel_response (cfg : Config) (ext : Ext) (req : Request)
    (client : SocketAddr) (user : Option String) (addr : String) (n : Nat)
    (hm : req.method = Method.CONNECT)
    (ha : ext.check_auth req.headers cfg.basic_auth = .ok user)
    (hh : ext.host_addr req.uri = some addr)
    (hr : ext.rngDraw 1 (2048 / ext.localIp.length) = n)
    (hn : 1 ≤ n) :
    handle cfg ext req client =
      (.ok (Outcome.Return
          { status := 200,
            headers := List.replicate n ("server", ext.localIp), body := "" }),
       { Events.init with authChecked := true, tunnelSpawned := true }) ∧
    getAllHeaders (List.replicate n (("server", ext.localIp) : String × String)) "server" =
      List.replicate n ext.localIp ∧
    1 ≤ n := by
  refine ⟨?_, getAllHeaders_replicate n "server" ext.localIp, hn⟩
  simp [handle, hm, proxyStage, ha, tunnel_proxy, hh, hr, Except.map]

/-- CONNECT example.com:443, parseable authority. -/
def reqConnectGood : Request :=
  { method := .CONNECT, version := .http11,
    uri := { scheme := none, host := some "example.com", port := some 443,
             pathAndQuery := none },
    headers := [("host", "example.com:443")], body := "" }

/-- Witness for C2 at a concrete request (the fixture rng draws 1). -/
theorem c2_connect_tunnel_response_witness :
    handle cfgFix extFix reqConnectGood clientFix =
      (.ok (Outcome.Return
          { status := 200,
            headers := List.replicate 1 ("server", extFix.localIp), body := "" }),
       { Events.init with authChecked := true, tunnelSpawned := true }) ∧
    getAllHeaders (List.replicate 1 (("server", extFix.localIp) : String × String)) "server" =
      List.replicate 1 extFix.localIp ∧
    1 ≤ 1 :=
  c2_connect_tunnel_response cfgFix extFix reqConnectGood clientFix none
    "example.com:443" 1 rfl rfl (by decide) (by decide) (by decide)

/-! ### C4 -/

/-- The request falls through the dispatcher's reverse-proxy and serving
branches and reaches the proxy stage, where check_auth runs: either it is
a CONNECT, or host resolution succeeds, no location rule matches, and it
is neither HTTP/2 nor host-less. -/
def reachesProxyStage (cfg : Config) (req : Request) : Prop :=
  req.method = Method.CONNECT ∨
  (∃ shp dom,
    extract_scheme_host_port req (if cfg.over_tls then "https" else "http") = .ok (shp, dom) ∧
    ((cfg.reverse_locations.lookup dom.host).orElse
        (fun _ => cfg.reverse_locations.lookup DEFAULT_HOST)).bind
      (fun rules => rules.find? (fun r => sStartsWith req.uri.path r.location)) = none ∧
    ¬(req.version = Version.http2 ∨ req.uri.host = none))

/-- C4: when a request that reaches the proxy stage fails authentication,
the handler returns a permission-denied error (the connection is dropped
without a response) if never_ask_for_auth is set, and otherwise a 407
response whose Proxy-Authenticate header is exactly the literal challenge
and whose body is "auth need". -/
theorem c4_auth_failure (cfg : Config) (ext : Ext) (req : Request)
    (client : SocketAddr) (e : String)
    (hp : reachesProxyStage cfg req)
    (ha : ext.check_auth req.headers cfg.basic_auth = .error e) :
    handle cfg ext req client =
      if cfg.never_ask_for_auth then
        (.error ⟨ErrorKind.permissionDenied, "wrong basic auth, closing socket..."⟩,
         { Events.init with authChecked := true })
      else
        (.ok (Outcome.Return
            { status := 407,
              headers := [("proxy-authenticate", "Basic realm=\"are you kidding me\"")],
              body := "auth need" }),
         { Events.init with authChecked := true }) := by
  have hroute : handle cfg ext req client = proxyStage cfg ext req client := by
    rcases hp with hm | ⟨shp, dom, hx, hb, hv⟩
    · simp [handle, hm]
    · by_cases hm : req.method = Method.CONNECT
      · simp [handle, hm]
      · simp [handle, hm, hx, hb, hv]
  rw [hroute]
  by_cases hnv : cfg.never_ask_for_auth <;>
    simp [proxyStage, ha, hnv, build_authenticate_resp]

/-- The fixture collaborators with failing authentication. -/
def extNoAuth : Ext := { extFix with check_auth := fun _ _ => .error "no credentials" }

/-- Witness for C4: the fixture config is in asking mode, so the failed
CONNECT gets the 407 challenge. -/
theorem c4_auth_failure_witness :
    handle cfgFix extNoAuth reqConnectGood clientFix =
      (.ok (Outcome.Return
          { status := 407,
            headers := [("proxy-authenticate", "Basic realm=\"are you kidding me\"")],
            body := "auth need" }),
       { Events.init with authChecked := true }) :=
  c4_auth_failure cfgFix extNoAuth reqConnectGood clientFix "no credentials"
    (Or.inl rfl) rfl

/-! ### C6 -/

/-- The serving gate's boolean deny condition, as a proposition: a
non-empty network allowlist none of whose entries contains the IP. -/
theorem serving_deny_iff (l : List Network) (ip : Ip) :
    (!l.isEmpty && !l.any (fun network => network.contains ip)) = true ↔
      (l ≠ [] ∧ ∀ nw ∈ l, nw.contains ip = false) := by
  simp [List.any_eq_true, List.isEmpty_iff]

/-- C6: a non-CONNECT request that is HTTP/2 or host-less, with no
matching reverse-proxy rule, is dropped when prohibit_serving is set;
otherwise it is dropped when allowed_networks is non-empty and no
configured CIDR contains the canonical client IP; otherwise the static
responder runs and the outcome is Continue(request) exactly when it
answers 404, else Return of its response (a responder error propagates as
the handler's error). -/
theorem c6_static_stage (cfg : Config) (ext : Ext) (req : Request) (client : SocketAddr)
    (shp : SchemeHostPort) (dom : RequestDomain)
    (hm : req.method ≠ Method.CONNECT)
    (hx : extract_scheme_host_port req (if cfg.over_tls then "https" else "http") =
      .ok (shp, dom))
    (hb : ((cfg.reverse_locations.lookup dom.host).orElse
        (fun _ => cfg.reverse_locations.lookup DEFAULT_HOST)).bind
      (fun rules => rules.find? (fun r => sStartsWith req.uri.path r.location)) = none)
    (hv : req.version = Version.http2 ∨ req.uri.host = none) :
    handle cfg ext req client =
      if cfg.serving_control.prohibit_serving then
        (.ok Outcome.Drop, Events.init)
      else if cfg.serving_control.allowed_networks ≠ [] ∧
          ∀ nw ∈ cfg.serving_control.allowed_networks,
            nw.contains client.ip.toCanonical = false then
        (.ok Outcome.Drop, Events.init)
      else
        match ext.serveStatic req with
        | .ok res =>
          if res.status = 404 then
            (.ok (Outcome.Continue req), { Events.init with staticInvoked := true })
          else (.ok (Outcome.Return res), { Events.init with staticInvoked := true })
        | .error e => (.error e, { Events.init with staticInvoked := true }) := by
  have hroute : handle cfg ext req client = servingStage cfg ext req client := by
    rcases hv with hv | hv <;> simp [handle, hm, hx, hb, hv]
  rw [hroute]
  by_cases hp : cfg.serving_control.prohibit_serving
  · simp [servingStage, hp]
  · by_cases hc : cfg.serving_control.allowed_networks ≠ [] ∧
        ∀ nw ∈ cfg.serving_control.allowed_networks,
          nw.contains client.ip.toCanonical = false
    · have hbool := (serving_deny_iff cfg.serving_control.allowed_networks
        client.ip.toCanonical).2 hc
      rw [if_neg hp, if_pos hc]
      simp [servingStage, hp, hbool]
    · have hbool : (!cfg.serving_control.allowed_networks.isEmpty &&
          !cfg.serving_control.allowed_networks.any
            (fun network => network.contains client.ip.toCanonical)) = false := by
        rcases Bool.eq_false_or_eq_true (!cfg.serving_control.allowed_networks.isEmpty &&
          !cfg.serving_control.allowed_networks.any
            (fun network => network.contains client.ip.toCanonical)) with h | h
        · exact absurd ((serving_deny_iff _ _).1 h) hc
        · exact h
      rw [if_neg hp, if_neg hc]
      simp [servingStage, hp, hbool]

/-- The fixture config restricted to serving from 10.0.0.0/8 only. -/
def cfgDeny : Config :=
  { cfgFix with serving_control :=
      { prohibit_serving := false, allowed_networks := [.v4 0x0A000000 8] } }

/-- An HTTP/2 GET for /index.html addressed to this server. -/
def reqH2 : Request :=
  { method := .GET, version := .http2,
    uri := { scheme := some "https", host := some "static.example", port := none,
             pathAndQuery := some "/index.html" },
    headers := [], body := "" }

/-- Witness for C6: the client at 192.168.1.5 is outside 10.0.0.0/8, so
the request is dropped without a response. -/
theorem c6_static_stage_witness :
    handle cfgDeny extFix reqH2 clientFix = (.ok Outcome.Drop, Events.init) := by
  have h := c6_static_stage cfgDeny extFix reqH2 clientFix
    { scheme := "https", host := "static.example", port := none }
    { host := "static.example" }
    (by decide) (by decide) (by decide) (Or.inl rfl)
  rw [h]
  decide

/-! ### C9 -/

/-- Folding the credential-table step over user entries that all lack a
nonempty username or password leaves the accumulator unchanged. -/
theorem basic_auth_foldl_skip (b64 : String → String) (l : List String)
    (acc : List (String × String))
    (h : ∀ u ∈ l, (strSplit ':' u).headD "" = "" ∨ ((strSplit ':' u).drop 1).headD "" = "") :
    l.foldl (basic_auth_step b64) acc = acc := by
  induction l generalizing acc with
  | nil => rfl
  | cons u t ih =>
    have hu := h u (by simp)
    have hstep : basic_auth_step b64 acc u = acc := by
      unfold basic_auth_step
      rcases hu with hu | hu <;> simp at hu <;> simp [hu]
    simp only [List.foldl_cons]
    rw [hstep]
    exact ih acc (fun v hv => h v (by simp [hv]))

/-- Collaborators for the configuration counterexample: a CIDR parser that
rejects its input, an identity stand-in for base64 (never reached: the
single user entry is malformed and skipped), a successful reverse-proxy
parse. -/
def cfgExtCex : ConfigExt :=
  { b64encode := fun s => s, parseCidr := fun _ => none, parseReverse := .ok [] }

/-- CLI parameters with one malformed user spec (no password) and one
CIDR string the parser rejects. -/
def paramCex : Param :=
  { users := ["nopassword"], never_ask_for_auth := false, prohibit_serving := false,
    allow_serving_network := ["300.1.2.3/40"], over_tls := false }

/-- Counterexample for C9: construction does not fail on an invalid CIDR
or a bad user spec — both entries are skipped and try_from succeeds with
an empty network allowlist and an empty credential table. -/
theorem c9_config_not_fatal_cex :
    Config.try_from cfgExtCex paramCex =
      .ok { basic_auth := [], never_ask_for_auth := false, over_tls := false,
            reverse_locations := [],
            serving_control := { prohibit_serving := false, allowed_networks := [] } } := by
  decide

/-- C9 amended: Config::try_from fails only when the reverse-proxy config
parser fails; an invalid CIDR in allow_serving_network is logged and
skipped (the allowed networks are exactly the parseable entries, and only
when serving is not prohibited and the list is non-empty), and a user
spec without a nonempty username and password is silently skipped (a
parameter list of only such specs yields an empty credential table). -/
theorem c9_config_skips_malformed (ext : ConfigExt) (param : Param)
    (locs : List (String × List LocationRule))
    (hr : ext.parseReverse = .ok locs) :
    ∃ cfg, Config.try_from ext param = .ok cfg ∧
      cfg.serving_control.prohibit_serving = param.prohibit_serving ∧
      cfg.serving_control.allowed_networks =
        (if !param.prohibit_serving && !param.allow_serving_network.isEmpty then
          param.allow_serving_network.filterMap ext.parseCidr
        else []) ∧
      cfg.reverse_locations = locs ∧
      ((∀ u ∈ param.users,
          (strSplit ':' u).headD "" = "" ∨ ((strSplit ':' u).drop 1).headD "" = "") →
        cfg.basic_auth = []) := by
  unfold Config.try_from
  rw [hr]
  exact ⟨_, rfl, rfl, rfl, rfl, fun h => basic_auth_foldl_skip ext.b64encode param.users [] h⟩

/-- Witness for the amended C9 at the concrete counterexample inputs. -/
theorem c9_config_skips_malformed_witness :
    ∃ cfg, Config.try_from cfgExtCex paramCex = .ok cfg ∧
      cfg.serving_control.prohibit_serving = paramCex.prohibit_serving ∧
      cfg.serving_control.allowed_networks =
        (if !paramCex.prohibit_serving && !paramCex.allow_serving_network.isEmpty then
          paramCex.allow_serving_network.filterMap cfgExtCex.parseCidr
        else []) ∧
      cfg.reverse_locations = [] ∧
      ((∀ u ∈ paramCex.users,
          (strSplit ':' u).headD "" = "" ∨ ((strSplit ':' u).drop 1).headD "" = "") →
        cfg.basic_auth = []) :=
  c9_config_skips_malformed cfgExtCex paramCex [] rfl

end RustHttpProxy
